import Mathlib

/-!
Verification of `rjgtoys/progressive/thread.py` (class `Threaded`).

The module is embedded shallowly: each method of `Threaded` becomes a Lean
function on an explicit `TaskState`, with the wall clock passed in as a
rational-number argument (`time.time()` values).  Python attribute lookups
that may fail (attributes that are only assigned by some methods) are
modelled with `Option`; a read of an unset attribute is an `AttributeError`.
Exceptions escaping a method are modelled with `Option PyExc` / `Except`.

The mutex (`self._lock`) serializes every method body, so each method is
modelled as one atomic state transition; interleavings of whole method
calls are modelled as sequences of such transitions (`Op` lists).
-/

namespace Progressive

/-- Python exception values that the embedded code can raise.
`userExc kind payload` stands for an arbitrary exception raised by the
wrapped callable (e.g. `ValueError("boom")`). -/
inductive PyExc where
  | nameError (missing : String)
  | attributeError (missing : String)
  | typeError (msg : String)
  | alreadyStartedError
  | actionFailedError
  | bug (description : String)
  | userExc (kind : String) (payload : String)
deriving Repr, DecidableEq

/-- Opaque Python values produced by a wrapped callable.  `Option PyValue`
models a Python value slot where `none` is Python `None`. -/
abbrev PyValue := String

/-- Names bound at module scope of `thread.py`: its imports
(`import threading`, `import time`, `from rjgtoys.xc import BaseXC,BugXC`)
and its own top-level definitions.  Note that `sys` is NOT among them:
`thread.py` has no `import sys`, although `Threaded.run` mentions
`sys.exc_info()`. -/
def moduleGlobals : List String :=
  ["threading", "time", "BaseXC", "BugXC",
   "Bug", "ErrorXC", "NothingToDoError", "AlreadyStartedError",
   "ActionFailedError", "Thread",
   "RETURN_NOTHING", "RETURN_VALUE", "RETURN_EXCEPTION", "Threaded"]

/-- `RETURN_NOTHING = 0`: no result at all (yet). -/
def RETURN_NOTHING : Nat := 0
/-- `RETURN_VALUE = 1`: a result (value). -/
def RETURN_VALUE : Nat := 1
/-- `RETURN_EXCEPTION = 2`: an exception was raised. -/
def RETURN_EXCEPTION : Nat := 2

/-- The public attributes written by `Threaded.sample` (`self.sampled`,
`self.updated`, `self.steps`, `self.done`, `self.pcdone`, `self.ttg`,
`self.eta`, `self.elapsed`).  They are distinct from the underscored
progress state that `sample` reads. -/
structure Snapshot where
  sampled : ℚ
  updated : ℚ
  steps : Int
  done : Int
  pcdone : Int
  ttg : ℚ
  eta : ℚ
  elapsed : ℚ
deriving Repr, DecidableEq

/-- The state of one `Threaded` instance.  Fields mirror the Python
attributes; `Option` fields are attributes that `__init__` does not assign
(`none` = attribute not set, reading it raises `AttributeError`), except
`result`/`excInfo` where `none` also stands for Python `None` /
`(None, None, None)` — the code never distinguishes those two situations.
`snap` bundles the non-underscored attributes assigned by `sample`. -/
structure TaskState where
  /-- `self._target is not None` (the wrapped callable is bound). -/
  targetPresent : Bool := true
  /-- `self._stopping` (a `threading.Event`), initially clear. -/
  stoppingFlag : Bool := false
  /-- `self._started` (a `threading.Event`), initially clear. -/
  startedFlag : Bool := false
  /-- `self._running`. -/
  running : Bool := false
  /-- `self._steps`, initially 0. -/
  steps : Int := 0
  /-- `self._done`, initially 0. -/
  done : Int := 0
  /-- `self.since`: assigned only by `start`. -/
  since : Option ℚ := none
  /-- `self._updated`: assigned only by `set_goal` and `update`. -/
  updatedAt : Option ℚ := none
  /-- `self._return`: assigned only by `run`. -/
  ret : Option Nat := none
  /-- `self._result`. -/
  result : Option PyValue := none
  /-- `self._exc_info[1]` (the whole triple is `(None, None, None)` unless
  an exception object was captured). -/
  excInfo : Option PyExc := none
  /-- The attributes assigned by `sample`, if `sample` has completed. -/
  snap : Option Snapshot := none
deriving Repr, DecidableEq

/-- The state built by `Threaded.__init__` for a bound callable. -/
def initTask : TaskState := {}

/-- `Threaded.started`: `return self._started.is_set()`. -/
def started (s : TaskState) : Bool := s.startedFlag

/-- `Threaded.stop`: `self._stopping.set()`. -/
def stop (s : TaskState) : TaskState := { s with stoppingFlag := true }

/-- `Threaded.stopping`: `return self._stopping.is_set()`. -/
def stopping (s : TaskState) : Bool := s.stoppingFlag

/-- `Threaded.set_goal(steps=None, done=0)`, called by the worker at time
`t`: sets `self._steps` (only if `steps is not None`), sets `self._done`
to `done` unconditionally (no clamping), refreshes `self._updated` and
sets the started event. -/
def set_goal (s : TaskState) (steps : Option Int) (done : Int) (t : ℚ) :
    TaskState :=
  let s :=
    match steps with
    | some n => { s with steps := n }
    | none => s
  { s with done := done, updatedAt := some t, startedFlag := true }

/-- `Threaded.update(done=1)`, called at time `t`: adds `done` to
`self._done`, then `if self._done < 0: self._done = 0
elif self._done > self._steps: self._done = self._steps`. -/
def update (s : TaskState) (done : Int) (t : ℚ) : TaskState :=
  let d := s.done + done
  let d := if d < 0 then 0 else if d > s.steps then s.steps else d
  { s with updatedAt := some t, done := d }

/-- One progress call made by the wrapped callable through its handle
(the `Threaded` object itself), stamped with the time at which it runs. -/
inductive HandleCall where
  | setGoal (steps : Option Int) (done : Int) (t : ℚ)
  | callUpdate (delta : Int) (t : ℚ)
deriving Repr, DecidableEq

/-- Whether a handle call is a `set_goal` call. -/
def HandleCall.isSetGoal : HandleCall → Bool
  | .setGoal _ _ _ => true
  | .callUpdate _ _ => false

/-- Effect of one handle call on the task state. -/
def applyCall (s : TaskState) : HandleCall → TaskState
  | .setGoal steps done t => set_goal s steps done t
  | .callUpdate delta t => update s delta t

instance {ε α : Type} [DecidableEq ε] [DecidableEq α] :
    DecidableEq (Except ε α) := fun a b =>
  match a, b with
  | .error e, .error f =>
      if h : e = f then .isTrue (by rw [h])
      else .isFalse (fun hh => h (by cases hh; rfl))
  | .error _, .ok _ => .isFalse (fun hh => Except.noConfusion hh)
  | .ok _, .error _ => .isFalse (fun hh => Except.noConfusion hh)
  | .ok x, .ok y =>
      if h : x = y then .isTrue (by rw [h])
      else .isFalse (fun hh => h (by cases hh; rfl))

/-- A wrapped callable, as seen by the wrapper: the sequence of progress
calls it makes on its handle, and then whether it returns a value
(`Except.ok`, `none` = Python `None`) or raises. -/
structure Target where
  calls : List HandleCall
  outcome : Except PyExc (Option PyValue)
deriving Repr, DecidableEq

/-- `Threaded.run`: resets the result slots, runs the target, and records
the outcome.  `raise NothingToDoBug(self)` is itself a `NameError` (the
class defined in the module is `NothingToDoError`).  In the `except:`
handler, `self._return = RETURN_EXCEPTION` runs first; the following
`self._exc_info = sys.exc_info()` then raises `NameError` because `sys`
is not in `moduleGlobals`.  Second component: exception escaping `run`. -/
def run (s : TaskState) (tgt : Target) : TaskState × Option PyExc :=
  if s.targetPresent = false then
    (s, some (PyExc.nameError "NothingToDoBug"))
  else
    let s := { s with ret := some RETURN_NOTHING, result := none,
                      excInfo := none }
    let s := tgt.calls.foldl applyCall s
    match tgt.outcome with
    | .ok v => ({ s with ret := some RETURN_VALUE, result := v }, none)
    | .error e =>
        let s := { s with ret := some RETURN_EXCEPTION }
        if "sys" ∈ moduleGlobals then
          ({ s with excInfo := some e }, none)
        else
          (s, some (PyExc.nameError "sys"))

/-- `Threaded._run_stop`, the worker-thread body: runs `run`, then — only
if the started event was set — performs the final bookkeeping
(`self.update(0)` at time `tFinal`, clear `_started`, clear `_running`).
If the started event was never set it returns at once (the caller will
notice and raise); an exception escaping `run` also skips the
bookkeeping and kills the worker thread. -/
def run_stop (s : TaskState) (tgt : Target) (tFinal : ℚ) :
    TaskState × Option PyExc :=
  let r := run s tgt
  match r.2 with
  | some e => (r.1, some e)
  | none =>
      if r.1.startedFlag = false then (r.1, none)
      else
        let s := update r.1 0 tFinal
        ({ s with startedFlag := false, running := false }, none)

/-- The handshake loop at the end of `Threaded.start`
(`while not self._started.wait(1.0): if not self._worker.is_alive(): ...`),
evaluated against the worker's final state (the loop exits either because
the started event is set, or because the worker thread has terminated
without setting it, in which case `_running` is cleared and
`ActionFailedError` raised). -/
def start_handshake (s : TaskState) : TaskState × Option PyExc :=
  if s.startedFlag then (s, none)
  else ({ s with running := false }, some PyExc.actionFailedError)

/-- `Threaded.start` for a run whose worker has been scheduled: the
mutex-guarded check-and-set (raise `AlreadyStartedError` if
`self._running`, else set `_running`, clear `_started`, record
`self.since = time.time()` at `tNow`), the spawned worker body
(`_run_stop`, with the worker's last clock reading `tFinal`;
`threading.Thread` creation is assumed to succeed), and the handshake.
An exception escaping the worker body dies with the worker thread
(printed by `threading`), so it is dropped here; the handshake then sees
whatever state the worker left. -/
def start (s : TaskState) (tgt : Target) (tNow tFinal : ℚ) :
    TaskState × Option PyExc :=
  if s.running then (s, some PyExc.alreadyStartedError)
  else
    let sA : TaskState :=
      { s with running := true, startedFlag := false, since := some tNow }
    start_handshake (run_stop sA tgt tFinal).1

/-- The `pcdone` computation in `Threaded.sample`:
`int(self.done*100/self.steps) if self.steps else 0`.  The module is
Python 2 (see the repository's example code), so `done*100/steps` on ints
is floor division and the `int(...)` wrapper is the identity. -/
def pcdoneOf (steps done : Int) : Int :=
  if steps ≠ 0 then Int.fdiv (done * 100) steps else 0

/-- The `ttg` computation in `Threaded.sample`: if `pcdone` is nonzero,
`(((updated-since)*(100.-pcdone))/pcdone)-(sampled-updated)`, else the
fixed fallback `60.0`. -/
def ttgOf (pcdone : Int) (updated since sampled : ℚ) : ℚ :=
  if pcdone ≠ 0 then
    (((updated - since) * ((100 : ℚ) - (pcdone : ℚ))) / (pcdone : ℚ))
      - (sampled - updated)
  else 60

/-- `Threaded.sample` at time `t`.  Reads `self._updated`
(`AttributeError` if no `set_goal`/`update` ever ran) and `self.since`
(`AttributeError` if no `start` ever ran; `since` is read both inside the
`ttg` computation when `pcdone` is nonzero and by `elapsed`, so a missing
`since` fails on either path — the `Option` match is hoisted).  Returns
the new state and the method's return value — `sample` has no `return`
statement, so that value is Python `None`. -/
def sample (s : TaskState) (t : ℚ) :
    Except PyExc (TaskState × Option PyValue) :=
  let sampled := t
  match s.updatedAt with
  | none => .error (PyExc.attributeError "_updated")
  | some upd =>
      let steps := s.steps
      let done := s.done
      let pcdone := pcdoneOf steps done
      match s.since with
      | none => .error (PyExc.attributeError "since")
      | some since =>
          let ttg := ttgOf pcdone upd since sampled
          let eta := ttg + t
          let elapsed := t - since
          .ok ({ s with snap := some ⟨sampled, upd, steps, done, pcdone,
                                      ttg, eta, elapsed⟩ }, none)

/-- `Threaded.wait`, evaluated against the state observed after
`self._worker.join(timeout)` returns: on `RETURN_VALUE` return the result
and reset the slot; on `RETURN_EXCEPTION` execute
`raise self._exc_info[1]` (raising `None` — the triple's middle component
when nothing was captured — is a `TypeError` in Python); otherwise
`raise Bug("Unrecognised return type")`. -/
def wait (s : TaskState) : TaskState × Except PyExc (Option PyValue) :=
  match s.ret with
  | none => (s, .error (PyExc.attributeError "_return"))
  | some r =>
      if r = RETURN_VALUE then
        ({ s with ret := some RETURN_NOTHING, result := none }, .ok s.result)
      else if r = RETURN_EXCEPTION then
        match s.excInfo with
        | some e => (s, .error e)
        | none =>
            (s, .error (PyExc.typeError
                  "exceptions must derive from BaseException"))
      else
        (s, .error (PyExc.bug "Unrecognised return type"))

/-- `Threaded.__call__`: `self.start(...)` then `return self.wait()`. -/
def invoke (s : TaskState) (tgt : Target) (tNow tFinal : ℚ) :
    TaskState × Except PyExc (Option PyValue) :=
  let r := start s tgt tNow tFinal
  match r.2 with
  | some e => (r.1, .error e)
  | none => wait r.1

/-- `Threaded.exc_info`. -/
def exc_info (s : TaskState) : Option PyExc := s.excInfo

/-- One caller- or worker-side operation on a task, for stating
lifetime-long invariants over arbitrary interleavings of whole
(mutex-serialized) method calls. -/
inductive Op where
  | opStart (tgt : Target) (tNow tFinal : ℚ)
  | opStop
  | opSetGoal (steps : Option Int) (done : Int) (t : ℚ)
  | opUpdate (delta : Int) (t : ℚ)
  | opSample (t : ℚ)
  | opWait
deriving Repr, DecidableEq

/-- The state transition of one operation (exceptions leave the state the
operation produced; a failed `sample` only misses some of its public
attribute writes, which `snap` summarises). -/
def applyOp (s : TaskState) : Op → TaskState
  | .opStart tgt tNow tFinal => (start s tgt tNow tFinal).1
  | .opStop => stop s
  | .opSetGoal steps done t => set_goal s steps done t
  | .opUpdate delta t => update s delta t
  | .opSample t =>
      match sample s t with
      | .ok (s', _) => s'
      | .error _ => s
  | .opWait => (wait s).1

/-- `runUpdates s us` applies a sequence of `update(delta)` calls (each with
its own timestamp) to `s`. -/
def runUpdates (s : TaskState) (us : List (Int × ℚ)) : TaskState :=
  us.foldl (fun s du => update s du.1 du.2) s

/-- A wrapped callable that makes no progress call and returns `None`. -/
def tgtNoop : Target := ⟨[], .ok none⟩

/-- A wrapped callable that calls `set_goal(1)` at time 0 and then raises
`ValueError("boom")`. -/
def boomTarget : Target :=
  ⟨[.setGoal (some 1) 0 0], .error (PyExc.userExc "ValueError" "boom")⟩

/-- A task with an active run (`self._running` true). -/
def runningTask : TaskState := { initTask with running := true }

/-- A task mid-run: `since`/`_updated` set, goal of 4 steps declared,
one step done. -/
def sampleTask : TaskState :=
  { initTask with updatedAt := some 2, since := some 0, steps := 4, done := 1,
                  running := true, startedFlag := true }

/-- A task whose previous run set `since` and `_updated` but whose current
goal is the initial `steps = 0`. -/
def goallessTask : TaskState :=
  { initTask with updatedAt := some 2, since := some 0 }

/-- The task state observed by `wait` after `start initTask boomTarget`:
the worker captured nothing (`_exc_info` still `(None, None, None)`), yet
`_return == RETURN_EXCEPTION`. -/
def excTask : TaskState := (start initTask boomTarget 0 1).1

/-- A task whose run produced a value, as observed by `wait`. -/
def valTask : TaskState :=
  { initTask with running := true, startedFlag := true, since := some 0,
                  updatedAt := some 1, steps := 1, done := 1,
                  ret := some RETURN_VALUE, result := some "r" }

/-- A task whose worker is still mid-run when `wait(timeout)` stops
blocking: `run` has reset `_return` to `RETURN_NOTHING` and not yet
written an outcome. -/
def midRunTask : TaskState :=
  { initTask with running := true, startedFlag := true, since := some 0,
                  updatedAt := some 1, steps := 4,
                  ret := some RETURN_NOTHING }

/-! ## Helper lemmas -/

theorem sys_missing : "sys" ∉ moduleGlobals := by decide

theorem applyCall_stoppingFlag (s : TaskState) (c : HandleCall) :
    (applyCall s c).stoppingFlag = s.stoppingFlag := by
  cases c with
  | setGoal steps done t => cases steps <;> simp [applyCall, set_goal]
  | callUpdate delta t => simp [applyCall, update]

theorem foldl_applyCall_stoppingFlag (cs : List HandleCall) (s : TaskState) :
    (cs.foldl applyCall s).stoppingFlag = s.stoppingFlag := by
  induction cs generalizing s with
  | nil => rfl
  | cons c cs ih => rw [List.foldl_cons, ih, applyCall_stoppingFlag]

theorem applyCall_startedFlag (s : TaskState) (c : HandleCall)
    (h : c.isSetGoal = false) :
    (applyCall s c).startedFlag = s.startedFlag := by
  cases c with
  | setGoal steps done t => simp [HandleCall.isSetGoal] at h
  | callUpdate delta t => simp [applyCall, update]

theorem foldl_applyCall_startedFlag (cs : List HandleCall) (s : TaskState)
    (h : ∀ c ∈ cs, c.isSetGoal = false) :
    (cs.foldl applyCall s).startedFlag = s.startedFlag := by
  induction cs generalizing s with
  | nil => rfl
  | cons c cs ih =>
      rw [List.foldl_cons, ih _ (fun c hc => h c (List.mem_cons_of_mem _ hc)),
        applyCall_startedFlag _ _ (h c (List.mem_cons_self _ _))]

theorem run_stoppingFlag (s : TaskState) (tgt : Target) :
    ((run s tgt).1).stoppingFlag = s.stoppingFlag := by
  obtain ⟨cs, out⟩ := tgt
  by_cases hp : s.targetPresent = false
  · simp [run, hp]
  · cases out <;>
      simp [run, hp, sys_missing, foldl_applyCall_stoppingFlag]

theorem run_startedFlag (s : TaskState) (tgt : Target)
    (h : ∀ c ∈ tgt.calls, c.isSetGoal = false) :
    ((run s tgt).1).startedFlag = s.startedFlag := by
  obtain ⟨cs, out⟩ := tgt
  by_cases hp : s.targetPresent = false
  · simp [run, hp]
  · cases out <;>
      simp [run, hp, sys_missing, foldl_applyCall_startedFlag _ _ h]

theorem run_stop_fst (s : TaskState) (tgt : Target) (tFinal : ℚ)
    (h : ((run s tgt).1).startedFlag = false) :
    (run_stop s tgt tFinal).1 = (run s tgt).1 := by
  unfold run_stop
  rcases hr : run s tgt with ⟨sr, esc⟩
  rw [hr] at h
  dsimp only at h ⊢
  cases esc with
  | some e => rfl
  | none => simp [h]

theorem run_stop_stoppingFlag (s : TaskState) (tgt : Target) (tFinal : ℚ) :
    ((run_stop s tgt tFinal).1).stoppingFlag = s.stoppingFlag := by
  unfold run_stop
  rcases hr : run s tgt with ⟨sr, esc⟩
  have hsr : sr.stoppingFlag = s.stoppingFlag := by
    have h2 := run_stoppingFlag s tgt; rw [hr] at h2; exact h2
  dsimp only
  cases esc with
  | some e => exact hsr
  | none =>
      by_cases hf : sr.startedFlag = false
      · simp [hf, hsr]
      · simp [hf, update, hsr]

theorem sample_ok_shape (s s' : TaskState) (t : ℚ) (v : Option PyValue)
    (h : sample s t = .ok (s', v)) :
    v = none ∧ ∃ sn : Snapshot, s' = { s with snap := some sn } := by
  unfold sample at h
  cases hu : s.updatedAt with
  | none => rw [hu] at h; exact absurd h (by simp)
  | some u =>
      rw [hu] at h
      cases hc : s.since with
      | none => rw [hc] at h; exact absurd h (by simp)
      | some c =>
          rw [hc] at h
          simp only [Except.ok.injEq, Prod.mk.injEq] at h
          exact ⟨h.2.symm, ⟨_, h.1.symm⟩⟩

theorem fdiv_eq_rat_floor (a b : Int) (hb : 0 < b) :
    Int.fdiv a b = ⌊(a : ℚ) / (b : ℚ)⌋ := by
  obtain ⟨n, rfl⟩ : ∃ n : ℕ, b = (n : ℤ) :=
    ⟨b.toNat, (Int.toNat_of_nonneg hb.le).symm⟩
  rw [Int.fdiv_eq_ediv a (by exact_mod_cast Nat.zero_le n)]
  rw [show ((n : ℤ) : ℚ) = (n : ℚ) by push_cast; ring]
  exact (Rat.floor_intCast_div_natCast a n).symm

theorem sample_eq (s : TaskState) (t u c : ℚ)
    (hu : s.updatedAt = some u) (hc : s.since = some c) :
    sample s t = .ok
      ({ s with snap := some ⟨t, u, s.steps, s.done, pcdoneOf s.steps s.done,
          ttgOf (pcdoneOf s.steps s.done) u c t,
          ttgOf (pcdoneOf s.steps s.done) u c t + t, t - c⟩ }, none) := by
  unfold sample
  rw [hu, hc]

theorem pcdoneOf_pos (steps done : Int) (h : 0 < steps) :
    pcdoneOf steps done = ⌊((done : ℚ) * 100) / (steps : ℚ)⌋ := by
  rw [pcdoneOf, if_pos (by omega : steps ≠ 0), fdiv_eq_rat_floor _ _ h]
  congr 1
  push_cast
  ring

theorem pcdoneOf_steps_zero (done : Int) : pcdoneOf 0 done = 0 := by
  simp [pcdoneOf]

theorem ttgOf_pcdone_zero (u c t : ℚ) : ttgOf 0 u c t = 60 := by
  simp [ttgOf]

theorem start_handshake_stoppingFlag (s : TaskState) :
    ((start_handshake s).1).stoppingFlag = s.stoppingFlag := by
  unfold start_handshake
  cases h : s.startedFlag <;> simp [h]

theorem start_stoppingFlag (s : TaskState) (tgt : Target) (tNow tFinal : ℚ) :
    ((start s tgt tNow tFinal).1).stoppingFlag = s.stoppingFlag := by
  unfold start
  cases hr : s.running
  · simp only [Bool.false_eq_true, if_false]
    rw [start_handshake_stoppingFlag, run_stop_stoppingFlag]
  · simp

theorem wait_fst_stoppingFlag (s : TaskState) :
    ((wait s).1).stoppingFlag = s.stoppingFlag := by
  unfold wait
  cases s.ret with
  | none => rfl
  | some r =>
      by_cases h1 : r = RETURN_VALUE
      · simp [h1]
      · by_cases h2 : r = RETURN_EXCEPTION
        · cases s.excInfo <;>
            simp [h1, h2, RETURN_VALUE, RETURN_EXCEPTION]
        · simp [h1, h2]

theorem applyOp_stoppingFlag (s : TaskState) (op : Op)
    (h : s.stoppingFlag = true) : (applyOp s op).stoppingFlag = true := by
  cases op with
  | opStart tgt tNow tFinal =>
      show ((start s tgt tNow tFinal).1).stoppingFlag = true
      rw [start_stoppingFlag]; exact h
  | opStop => simp [applyOp, stop]
  | opSetGoal steps done t =>
      cases steps <;> simp [applyOp, set_goal, h]
  | opUpdate delta t => simp [applyOp, update, h]
  | opSample t =>
      show (match sample s t with
            | .ok (s', _) => s'
            | .error _ => s).stoppingFlag = true
      rcases hs : sample s t with e | ⟨s', v⟩
      · exact h
      · obtain ⟨-, sn, rfl⟩ := sample_ok_shape s s' t v hs
        exact h
  | opWait =>
      show ((wait s).1).stoppingFlag = true
      rw [wait_fst_stoppingFlag]; exact h

theorem update_bounds (s : TaskState) (delta : Int) (t : ℚ)
    (h0 : 0 ≤ s.done) (h1 : s.done ≤ s.steps) :
    0 ≤ (update s delta t).done ∧
      (update s delta t).done ≤ (update s delta t).steps := by
  simp only [update]
  constructor <;> (dsimp only; split_ifs <;> omega)

theorem runUpdates_bounds (us : List (Int × ℚ)) (s : TaskState)
    (h0 : 0 ≤ s.done) (h1 : s.done ≤ s.steps) :
    0 ≤ (runUpdates s us).done ∧
      (runUpdates s us).done ≤ (runUpdates s us).steps := by
  induction us generalizing s with
  | nil => exact ⟨h0, h1⟩
  | cons u us ih =>
      have hb := update_bounds s u.1 u.2 h0 h1
      simpa [runUpdates] using ih (update s u.1 u.2) hb.1 hb.2

theorem pcdoneOf_sampleTask :
    pcdoneOf sampleTask.steps sampleTask.done = 25 := by decide

theorem ttgOf_25 : ttgOf 25 2 0 3 = 5 := by
  rw [ttgOf, if_pos (by decide : (25 : Int) ≠ 0)]
  norm_num

theorem sample_sampleTask_eval :
    sample sampleTask 3 =
      .ok ({ sampleTask with snap := some ⟨3, 2, 4, 1, 25, 5, 8, 3⟩ },
           none) := by
  rw [sample_eq sampleTask 3 2 0 rfl rfl, pcdoneOf_sampleTask, ttgOf_25]
  norm_num [sampleTask, initTask]

/-! ## Claims -/

/-- C1 (code bug): the claim says a failure `E` raised by the wrapped
callable is captured at the worker and re-raised exactly by `wait`.  The
code intends this, but `thread.py` never imports `sys`, so the `except:`
handler in `run` itself raises `NameError` at `sys.exc_info()`:
`_exc_info` stays `(None, None, None)`, and `wait` executes
`raise self._exc_info[1]`, i.e. `raise None` — a `TypeError`, not the
original `ValueError("boom")`.  The worker also dies before its final
bookkeeping, leaving the task running. -/
theorem C1_missing_sys_eval :
    "sys" ∉ moduleGlobals ∧
    (run_stop { initTask with running := true, startedFlag := false,
                              since := some 0 } boomTarget 1).2 =
      some (PyExc.nameError "sys") ∧
    (invoke initTask boomTarget 0 1).2 =
      .error (PyExc.typeError "exceptions must derive from BaseException") ∧
    (invoke initTask boomTarget 0 1).2 ≠
      .error (PyExc.userExc "ValueError" "boom") ∧
    (invoke initTask boomTarget 0 1).1.running = true := by
  decide

/-- C2 (confirmed): if the worker terminates without ever calling
`set_goal` (no `setGoal` among its handle calls), `start` on a
not-running task raises `ActionFailedError`, leaves `_running` false and
`_started` clear, and the worker's final bookkeeping in `_run_stop` is
skipped — the final state is exactly the post-`run` state with only
`_running` cleared by the starter. -/
theorem C2_start_fails_without_goal (s : TaskState) (tgt : Target)
    (tNow tFinal : ℚ) (hr : s.running = false)
    (hng : ∀ c ∈ tgt.calls, c.isSetGoal = false) :
    start s tgt tNow tFinal =
      ({ (run { s with running := true, startedFlag := false,
                       since := some tNow } tgt).1 with running := false },
       some PyExc.actionFailedError) ∧
    ((start s tgt tNow tFinal).1).startedFlag = false := by
  have hsf : ((run { s with running := true, startedFlag := false,
                            since := some tNow } tgt).1).startedFlag
      = false := by
    rw [run_startedFlag _ _ hng]
  have hmain : start s tgt tNow tFinal =
      ({ (run { s with running := true, startedFlag := false,
                       since := some tNow } tgt).1 with running := false },
       some PyExc.actionFailedError) := by
    unfold start
    rw [hr]
    simp only [Bool.false_eq_true, if_false]
    rw [run_stop_fst _ _ _ hsf]
    unfold start_handshake
    rw [hsf]
    simp
  exact ⟨hmain, by rw [hmain]; exact hsf⟩

/-- Witness for C2 at a concrete input: the wrapped callable makes no
progress call and returns `None`. -/
theorem C2_witness :
    (start initTask tgtNoop 0 1 =
      ({ (run { initTask with running := true, startedFlag := false,
                              since := some 0 } tgtNoop).1
           with running := false },
       some PyExc.actionFailedError) ∧
    ((start initTask tgtNoop 0 1).1).startedFlag = false) :=
  C2_start_fails_without_goal initTask tgtNoop 0 1 rfl
    (by intro c hc; simp [tgtNoop] at hc)

/-- C3 (confirmed): `start` on a task whose `_running` flag is true raises
`AlreadyStartedError` and returns the state completely unchanged — no
counter, signal, timestamp or outcome field is touched. -/
theorem C3_second_start_already (s : TaskState) (tgt : Target)
    (tNow tFinal : ℚ) (h : s.running = true) :
    start s tgt tNow tFinal = (s, some PyExc.alreadyStartedError) := by
  unfold start
  rw [h]
  simp

/-- Witness for C3: a task with an active run. -/
theorem C3_witness :
    start runningTask tgtNoop 0 1 =
      (runningTask, some PyExc.alreadyStartedError) :=
  C3_second_start_already runningTask tgtNoop 0 1 rfl

/-- C4 (counterexample): `set_goal` does not clamp its `done` argument:
`set_goal(steps=5, done=10)` leaves `done = 10 > steps = 5`, so the claim
that `done` stays within `[0, steps]` after every `declare_goal(steps,
done)` call is false. -/
theorem C4_counterexample :
    ¬ (0 ≤ (set_goal initTask (some 5) 10 0).done ∧
       (set_goal initTask (some 5) 10 0).done ≤
         (set_goal initTask (some 5) 10 0).steps) := by
  decide

/-- C4 (amended): `declare_goal(steps, done)` establishes
`0 ≤ done ≤ steps` exactly when its `done` argument is already in range
(in particular for the default `done = 0` with `steps ≥ 0`); from there,
every sequence of `update(delta)` calls with arbitrary (negative or
oversized) deltas keeps `done` within `[0, steps]` at every observation
point. -/
theorem C4_amended_clamping (s : TaskState) (stepsArg doneArg : Int)
    (t : ℚ) (us : List (Int × ℚ))
    (h0 : 0 ≤ doneArg) (h1 : doneArg ≤ stepsArg) :
    (0 ≤ (set_goal s (some stepsArg) doneArg t).done ∧
      (set_goal s (some stepsArg) doneArg t).done ≤
        (set_goal s (some stepsArg) doneArg t).steps) ∧
    (0 ≤ (runUpdates (set_goal s (some stepsArg) doneArg t) us).done ∧
      (runUpdates (set_goal s (some stepsArg) doneArg t) us).done ≤
        (runUpdates (set_goal s (some stepsArg) doneArg t) us).steps) := by
  have hd : (set_goal s (some stepsArg) doneArg t).done = doneArg := by
    simp [set_goal]
  have hs : (set_goal s (some stepsArg) doneArg t).steps = stepsArg := by
    simp [set_goal]
  refine ⟨⟨?_, ?_⟩, ?_⟩
  · rw [hd]; exact h0
  · rw [hd, hs]; exact h1
  · exact runUpdates_bounds us _ (by rw [hd]; exact h0)
      (by rw [hd, hs]; exact h1)

/-- Witness for C4 (amended): goal of 3 steps with 1 already done, then an
oversized update (+5) followed by an oversized negative update (-9). -/
theorem C4_witness :
    ((0 ≤ (set_goal initTask (some 3) 1 0).done ∧
      (set_goal initTask (some 3) 1 0).done ≤
        (set_goal initTask (some 3) 1 0).steps) ∧
    (0 ≤ (runUpdates (set_goal initTask (some 3) 1 0)
            [(5, 1), (-9, 2)]).done ∧
      (runUpdates (set_goal initTask (some 3) 1 0)
            [(5, 1), (-9, 2)]).done ≤
        (runUpdates (set_goal initTask (some 3) 1 0)
            [(5, 1), (-9, 2)]).steps)) :=
  C4_amended_clamping initTask 3 1 0 [(5, 1), (-9, 2)]
    (by decide) (by decide)

/-- C5 (counterexample): `sample()` on a freshly constructed task — before
any run has started — does not succeed: it reads `self._updated`, which
`__init__` never assigns, and raises `AttributeError`. -/
theorem C5_counterexample :
    sample initTask 5 = .error (PyExc.attributeError "_updated") := by
  decide

/-- C5 (amended): once `self._updated` and `self.since` exist (e.g. stale
from a previous run), `sample()` taken while no goal is declared
(`steps = 0`) succeeds and its snapshot reports `percent_done == 0` and
the fallback `time_to_go == 60`. -/
theorem C5_amended_goalless (s : TaskState) (t u c : ℚ)
    (hu : s.updatedAt = some u) (hc : s.since = some c)
    (hs : s.steps = 0) :
    sample s t =
      .ok ({ s with snap := some ⟨t, u, 0, s.done, 0, 60, 60 + t, t - c⟩ },
           none) := by
  rw [sample_eq s t u c hu hc, hs, pcdoneOf_steps_zero, ttgOf_pcdone_zero]

/-- Witness for C5 (amended): previous-run timestamps `_updated = 2`,
`since = 0`, sampled at `t = 7`. -/
theorem C5_witness :
    sample goallessTask 7 =
      .ok ({ goallessTask with
              snap := some ⟨7, 2, 0, goallessTask.done, 0, 60, 60 + 7,
                            7 - 0⟩ },
           none) :=
  C5_amended_goalless goallessTask 7 2 0 rfl rfl rfl

/-- C6 (confirmed): in every snapshot produced by `sample()`,
`percent_done` is `floor(done*100/steps)` when `steps > 0` and `0` when
`steps == 0`; and whenever `percent_done == 0`, `time_to_go` is the fixed
fallback `60`, not a computed estimate. -/
theorem C6_percent_floor_fallback (s s' : TaskState) (t : ℚ)
    (v : Option PyValue) (sn : Snapshot)
    (h : sample s t = .ok (s', v)) (hsn : s'.snap = some sn) :
    (0 < sn.steps →
      sn.pcdone = ⌊((sn.done : ℚ) * 100) / (sn.steps : ℚ)⌋) ∧
    (sn.steps = 0 → sn.pcdone = 0) ∧
    (sn.pcdone = 0 → sn.ttg = 60) := by
  cases hu : s.updatedAt with
  | none => unfold sample at h; rw [hu] at h; exact absurd h (by simp)
  | some u =>
      cases hc : s.since with
      | none =>
          unfold sample at h
          rw [hu, hc] at h
          exact absurd h (by simp)
      | some c =>
          rw [sample_eq s t u c hu hc] at h
          simp only [Except.ok.injEq, Prod.mk.injEq] at h
          rw [← h.1] at hsn
          simp only [Option.some.injEq] at hsn
          subst hsn
          refine ⟨?_, ?_, ?_⟩
          · intro hpos
            simp only at hpos ⊢
            rw [pcdoneOf_pos _ _ hpos]
          · intro hzero
            simp only at hzero ⊢
            rw [hzero, pcdoneOf_steps_zero]
          · intro hpz
            simp only at hpz ⊢
            rw [hpz, ttgOf_pcdone_zero]

/-- Witness for C6: four steps, one done, sampled at `t = 3` with
`_updated = 2`, `since = 0`; the snapshot shows `pcdone = 25`,
`ttg = 5`. -/
theorem C6_witness :
    (0 < (4 : Int) → (25 : Int) = ⌊(((1 : Int) : ℚ) * 100) / ((4 : Int) : ℚ)⌋) ∧
    ((4 : Int) = 0 → (25 : Int) = 0) ∧
    ((25 : Int) = 0 → (5 : ℚ) = 60) :=
  C6_percent_floor_fallback sampleTask
    { sampleTask with snap := some ⟨3, 2, 4, 1, 25, 5, 8, 3⟩ } 3 none
    ⟨3, 2, 4, 1, 25, 5, 8, 3⟩ sample_sampleTask_eval rfl

/-- C7 (counterexample): on a FAILURE outcome the outcome slot is NOT
reset by `wait`: after a run whose callable raised, `wait` leaves the
state — including `_return == RETURN_EXCEPTION` — completely unchanged,
and a second `wait` raises the same failure again, so the failure outcome
is retrievable twice. -/
theorem C7_counterexample :
    excTask.ret = some RETURN_EXCEPTION ∧
    (wait excTask).1 = excTask ∧
    (wait excTask).2 =
      .error (PyExc.typeError "exceptions must derive from BaseException") ∧
    (wait (wait excTask).1).2 = (wait excTask).2 := by
  decide

/-- C7 (amended): the outcome slot is written once per run by the worker;
on a VALUE outcome `wait` returns the value and resets the slot to NONE
(so the value is not retrievable twice — a second `wait` raises `Bug`);
on a FAILURE outcome `wait` re-raises but leaves the slot untouched, so
the failure is re-raised by every subsequent `wait`. -/
theorem C7_outcome_slot (s : TaskState) :
    (s.ret = some RETURN_VALUE →
      wait s = ({ s with ret := some RETURN_NOTHING, result := none },
                .ok s.result) ∧
      (wait (wait s).1).2 = .error (PyExc.bug "Unrecognised return type")) ∧
    (s.ret = some RETURN_EXCEPTION → (wait s).1 = s) := by
  constructor
  · intro h
    have h1 : wait s =
        ({ s with ret := some RETURN_NOTHING, result := none },
         .ok s.result) := by
      simp [wait, h]
    refine ⟨h1, ?_⟩
    rw [h1]
    simp [wait, RETURN_NOTHING, RETURN_VALUE, RETURN_EXCEPTION]
  · intro h
    cases he : s.excInfo <;>
      simp [wait, h, he, RETURN_VALUE, RETURN_EXCEPTION]

/-- Witness for C7 (amended): a VALUE outcome (`result = "r"`) and a
FAILURE outcome. -/
theorem C7_witness :
    (wait valTask =
        ({ valTask with ret := some RETURN_NOTHING, result := none },
         .ok valTask.result) ∧
      (wait (wait valTask).1).2 =
        .error (PyExc.bug "Unrecognised return type")) ∧
    (wait excTask).1 = excTask :=
  ⟨(C7_outcome_slot valTask).1 rfl, (C7_outcome_slot excTask).2 (by decide)⟩

/-- C8 (counterexample): `sample()` does not return a snapshot: the
method has no `return` statement, so its return value is Python `None`;
the derived fields are instead stored as (non-underscored) attributes on
the Task object itself. -/
theorem C8_counterexample :
    sample sampleTask 3 =
      .ok ({ sampleTask with snap := some ⟨3, 2, 4, 1, 25, 5, 8, 3⟩ },
           none) :=
  sample_sampleTask_eval

/-- C8 (amended): a successful `sample()` returns `None`, stores the
derived point-in-time snapshot fields on the Task, and leaves every
persistent progress field — counters, timestamps, flags, outcome slot —
unchanged. -/
theorem C8_sample_frame (s s' : TaskState) (t : ℚ) (v : Option PyValue)
    (h : sample s t = .ok (s', v)) :
    v = none ∧ (∃ sn : Snapshot, s'.snap = some sn) ∧
    s'.steps = s.steps ∧ s'.done = s.done ∧ s'.since = s.since ∧
    s'.updatedAt = s.updatedAt ∧ s'.running = s.running ∧
    s'.startedFlag = s.startedFlag ∧ s'.stoppingFlag = s.stoppingFlag ∧
    s'.ret = s.ret ∧ s'.result = s.result ∧ s'.excInfo = s.excInfo ∧
    s'.targetPresent = s.targetPresent := by
  obtain ⟨hv, sn, rfl⟩ := sample_ok_shape s s' t v h
  exact ⟨hv, ⟨sn, rfl⟩, rfl, rfl, rfl, rfl, rfl, rfl, rfl, rfl, rfl, rfl,
         rfl⟩

/-- Witness for C8 (amended), at the same concrete sample as the
counterexample. -/
theorem C8_witness :
    (none : Option PyValue) = none ∧
    (∃ sn : Snapshot,
      ({ sampleTask with
          snap := some ⟨3, 2, 4, 1, 25, 5, 8, 3⟩ } : TaskState).snap =
        some sn) ∧
    ({ sampleTask with
        snap := some ⟨3, 2, 4, 1, 25, 5, 8, 3⟩ } : TaskState).steps =
      sampleTask.steps ∧
    ({ sampleTask with
        snap := some ⟨3, 2, 4, 1, 25, 5, 8, 3⟩ } : TaskState).done =
      sampleTask.done ∧
    ({ sampleTask with
        snap := some ⟨3, 2, 4, 1, 25, 5, 8, 3⟩ } : TaskState).since =
      sampleTask.since ∧
    ({ sampleTask with
        snap := some ⟨3, 2, 4, 1, 25, 5, 8, 3⟩ } : TaskState).updatedAt =
      sampleTask.updatedAt ∧
    ({ sampleTask with
        snap := some ⟨3, 2, 4, 1, 25, 5, 8, 3⟩ } : TaskState).running =
      sampleTask.running ∧
    ({ sampleTask with
        snap := some ⟨3, 2, 4, 1, 25, 5, 8, 3⟩ } : TaskState).startedFlag =
      sampleTask.startedFlag ∧
    ({ sampleTask with
        snap := some ⟨3, 2, 4, 1, 25, 5, 8, 3⟩ } : TaskState).stoppingFlag =
      sampleTask.stoppingFlag ∧
    ({ sampleTask with
        snap := some ⟨3, 2, 4, 1, 25, 5, 8, 3⟩ } : TaskState).ret =
      sampleTask.ret ∧
    ({ sampleTask with
        snap := some ⟨3, 2, 4, 1, 25, 5, 8, 3⟩ } : TaskState).result =
      sampleTask.result ∧
    ({ sampleTask with
        snap := some ⟨3, 2, 4, 1, 25, 5, 8, 3⟩ } : TaskState).excInfo =
      sampleTask.excInfo ∧
    ({ sampleTask with
        snap := some ⟨3, 2, 4, 1, 25, 5, 8, 3⟩ } : TaskState).targetPresent =
      sampleTask.targetPresent :=
  C8_sample_frame sampleTask
    { sampleTask with snap := some ⟨3, 2, 4, 1, 25, 5, 8, 3⟩ } 3 none
    sample_sampleTask_eval

/-- C9 (confirmed): if `wait(timeout)` stops blocking while the worker is
still mid-run — the outcome slot still holds `RETURN_NOTHING` — `wait`
raises `Bug("Unrecognised return type")` rather than returning a value or
signalling an ordinary timeout. -/
theorem C9_wait_timeout_bug (s : TaskState)
    (h : s.ret = some RETURN_NOTHING) :
    wait s = (s, .error (PyExc.bug "Unrecognised return type")) := by
  simp [wait, h, RETURN_NOTHING, RETURN_VALUE, RETURN_EXCEPTION]

/-- Witness for C9: a task mid-run (goal declared, outcome not yet
written). -/
theorem C9_witness :
    wait midRunTask =
      (midRunTask, .error (PyExc.bug "Unrecognised return type")) :=
  C9_wait_timeout_bug midRunTask rfl

/-- C10 (confirmed): once `stop()` has been called, `stopping()` returns
true after every subsequent sequence of operations — `start` (with any
callable and any worker behaviour), `set_goal`, `update`, `sample`,
`wait`, further `stop`s — nothing ever clears the stop-requested
signal. -/
theorem C10_stop_latched (s : TaskState) (ops : List Op) :
    stopping (ops.foldl applyOp (stop s)) = true := by
  have key : ∀ (l : List Op) (s0 : TaskState), s0.stoppingFlag = true →
      (l.foldl applyOp s0).stoppingFlag = true := by
    intro l
    induction l with
    | nil => intro s0 h; exact h
    | cons op l ih =>
        intro s0 h
        exact ih _ (applyOp_stoppingFlag s0 op h)
  exact key ops (stop s) rfl

end Progressive
